import Mathlib

/-!
Verification of the THE World University Rankings scraper
(`the_scraper.py`, `api_discovery_test.py`, `db_insert_generator.py`).

The Python sources are shallowly embedded: pure string manipulation is
modelled over `List Char`, JSON values as an inductive type, pandas
DataFrames as a `Frame` structure, and the effectful capture strategies as
explicit environment records holding their observable outcomes.  Machine
integers are `Nat`; the two float comparisons in the source
(`expected_rows * 0.5` and `expected * 0.9`) are modelled by the exact
integer comparisons `2 * n < e` and `9 * e <= 10 * n`, which agree with the
IEEE-double evaluation for every integer row count and every value stored
in `YEAR_LIMITS` (the products 2671*0.9, 2855*0.9, 2191*0.9 and n*0.5 are
never rounded across an integer boundary).
-/

set_option autoImplicit false
set_option maxRecDepth 100000
set_option maxHeartbeats 2000000

namespace TheScraper

/-! ## Python-style string primitives (over `List Char`) -/

/-- The single-quote character, written via its code point. -/
def quoteChar : Char := Char.ofNat 39

/-- The double-quote character, written via its code point. -/
def dquoteChar : Char := Char.ofNat 34

/-- A string holding one single quote. -/
def quoteStr : String := String.singleton quoteChar

/-- Python `needle in haystack` on character lists. -/
def containsL (h pat : List Char) : Bool :=
  pat.isPrefixOf h ||
    match h with
    | [] => false
    | _ :: t => containsL t pat

/-- Python `pat in s` for strings. -/
def containsStr (s pat : String) : Bool := containsL s.toList pat.toList

/-- Python `s.endswith(pat)`. -/
def endsWithStr (s pat : String) : Bool := pat.toList.isSuffixOf s.toList

/-- Python `s.lower()` (ASCII case folding; every string the scraper
compares is ASCII). -/
def strLower (s : String) : String := String.mk (s.toList.map Char.toLower)

/-- Python `len(s)` for strings. -/
def pyLen (s : String) : Nat := s.toList.length

/-- Python whitespace as recognised by `str.strip()`. -/
def isSpaceChar (c : Char) : Bool :=
  c == ' ' || c == '\t' || c == '\n' || c == '\r' ||
    c == Char.ofNat 11 || c == Char.ofNat 12

/-- Drop leading whitespace from a character list. -/
def dropLeadingSpaces : List Char → List Char
  | [] => []
  | c :: t => if isSpaceChar c then dropLeadingSpaces t else c :: t

/-- Python `s.strip()`. -/
def pyStrip (s : String) : String :=
  String.mk ((dropLeadingSpaces ((dropLeadingSpaces s.toList).reverse)).reverse)

/-- Python `s[:-1]`. -/
def dropLastChar (s : String) : String := String.mk s.toList.dropLast

/-- Fueled worker for Python `str.replace` with a non-empty pattern
`p :: ps`; the fuel is an upper bound on the length of the scanned list,
making the definition structurally recursive and kernel-reducible. -/
def replaceAux : Nat → List Char → Char → List Char → List Char → List Char
  | 0, h, _, _, _ => h
  | _ + 1, [], _, _, _ => []
  | fuel + 1, c :: t, p, ps, rep =>
      if (p :: ps).isPrefixOf (c :: t) then
        rep ++ replaceAux fuel (t.drop ps.length) p ps rep
      else
        c :: replaceAux fuel t p ps rep

/-- Python `s.replace(pat, rep)` (left-to-right, non-overlapping); the
patterns used by the scraper are never empty, and an empty pattern returns
the string unchanged here. -/
def pyReplace (s pat rep : String) : String :=
  match pat.toList with
  | [] => s
  | p :: ps => String.mk (replaceAux s.toList.length s.toList p ps rep.toList)

/-! ## JSON values and `json.dumps` -/

/-- Parsed JSON values (`json.loads` output).  Objects are association
lists in key order; `json.loads` never produces duplicate keys. -/
inductive Json where
  | null
  | bool (b : Bool)
  | num (n : Int)
  | str (s : String)
  | arr (xs : List Json)
  | obj (kvs : List (String × Json))

/-- Escape one character the way `json.dumps` does for the ASCII
characters appearing in the scraper's data. -/
def escapeJsonChar (c : Char) : List Char :=
  if c == dquoteChar then ['\\', dquoteChar]
  else if c == '\\' then ['\\', '\\']
  else [c]

/-- Escape a string body for `json.dumps`. -/
def escapeJson (s : String) : String :=
  String.mk (s.toList.foldr (fun c acc => escapeJsonChar c ++ acc) [])

mutual

/-- `json.dumps` with the default separators `", "` and `": "`. -/
def dumps : Json → String
  | Json.null => "null"
  | Json.bool true => "true"
  | Json.bool false => "false"
  | Json.num n => toString n
  | Json.str s => String.singleton dquoteChar ++ escapeJson s ++ String.singleton dquoteChar
  | Json.arr xs => "[" ++ dumpsList xs ++ "]"
  | Json.obj kvs => "\x7b" ++ dumpsKvs kvs ++ "\x7d"

/-- Comma-separated dump of an array body. -/
def dumpsList : List Json → String
  | [] => ""
  | [j] => dumps j
  | j :: rest => dumps j ++ ", " ++ dumpsList rest

/-- Comma-separated dump of an object body. -/
def dumpsKvs : List (String × Json) → String
  | [] => ""
  | [(k, v)] => String.singleton dquoteChar ++ escapeJson k ++ String.singleton dquoteChar ++ ": " ++ dumps v
  | (k, v) :: rest =>
      String.singleton dquoteChar ++ escapeJson k ++ String.singleton dquoteChar ++ ": " ++ dumps v
        ++ ", " ++ dumpsKvs rest

end

/-- Is the value a JSON object (`isinstance(data, dict)`)? -/
def isObjB : Json → Bool
  | Json.obj _ => true
  | _ => false

/-- Is the value a JSON array (`isinstance(data, list)`)? -/
def isArrB : Json → Bool
  | Json.arr _ => true
  | _ => false

/-- Python `d[key]` / `key in d` support: first binding of the key in an
object body (keys are unique in `json.loads` output). -/
def jsonLookup : List (String × Json) → String → Option Json
  | [], _ => none
  | (k, v) :: rest, key => if k == key then some v else jsonLookup rest key

/-! ## Normalized tables (pandas DataFrames) -/

/-- One cell of a table; `none` models pandas `NaN` padding for missing
values. -/
abbrev Cell := Option Json

/-- A normalized table: ordered headers and ordered rows.  `headers = []`
stands for pandas' positional (RangeIndex) columns. -/
structure Frame where
  headers : List String
  rows : List (List Cell)

/-- Python `len(df)`: the row count. -/
def rowCount (f : Frame) : Nat := f.rows.length

/-- The empty DataFrame. -/
def emptyFrame : Frame := { headers := [], rows := [] }

/-- Pad a row with `NaN` cells up to width `n` (pandas alignment). -/
def padCells (r : List Cell) (n : Nat) : List Cell :=
  r ++ List.replicate (n - r.length) none

/-- Column order of `pd.DataFrame(records)`: union of the record keys in
first-seen order. -/
def collectKeys (records : List Json) : List String :=
  records.foldl
    (fun acc j =>
      match j with
      | Json.obj kvs => kvs.foldl (fun a kv => if a.contains kv.1 then a else a ++ [kv.1]) acc
      | _ => acc)
    []

/-- Longest row length, for pandas' rectangularisation of a list of
lists. -/
def foldMaxLenJ (xs : List Json) : Nat :=
  xs.foldl
    (fun m j =>
      match j with
      | Json.arr r => max m r.length
      | _ => m)
    0

/-- `pd.DataFrame(l)` for a parsed JSON list `l`, covering the three
shapes the scraper feeds it: a list of records (objects) keyed by the
union of field names with `NaN` for missing fields, a list of lists padded
to the longest row, and otherwise one value per single-cell row. -/
def mkFrame (l : List Json) : Frame :=
  if l.all isObjB then
    let hs := collectKeys l
    { headers := hs,
      rows := l.map
        (fun j =>
          match j with
          | Json.obj kvs => hs.map (fun k => jsonLookup kvs k)
          | _ => []) }
  else if l.all isArrB then
    let m := foldMaxLenJ l
    { headers := [],
      rows := l.map
        (fun j =>
          match j with
          | Json.arr xs => padCells (xs.map some) m
          | _ => []) }
  else
    { headers := [], rows := l.map (fun j => [some j]) }

/-- The `else` branch of `parse_datatable_json`: iterate the object items
in order and build a DataFrame from the first non-empty list value
(`for key, value in data.items(): if isinstance(value, list) and
len(value) > 0`). -/
def objElseBranch : List (String × Json) → Option Frame
  | [] => none
  | (_, Json.arr (x :: xs)) :: _ => some (mkFrame (x :: xs))
  | _ :: rest => objElseBranch rest

/-- `parse_datatable_json` (`the_scraper.py` lines 195-244).  The input is
the `json.loads` outcome of the payload (`none` = `JSONDecodeError`, which
the function catches and turns into `None`).  Branches:
* object with a `"data"` key holding a list -> `pd.DataFrame(data["data"])`;
* object otherwise -> the keyed fallback loop over `data.items()`;
* array: Python first evaluates `'data' in data`, which on a list is a
  membership test; if the string `"data"` is an element, `data['data']`
  then raises `TypeError`, caught as `None`; otherwise the
  `isinstance(data, list)` branch builds `pd.DataFrame(data)`;
* any other payload (string, number, bool, null) raises inside the `try`
  (`TypeError` from `in`/indexing or `AttributeError` from `.items()`)
  and yields `None`. -/
def parse_datatable_json : Option Json → Option Frame
  | none => none
  | some (Json.obj kvs) =>
      match jsonLookup kvs "data" with
      | some (Json.arr l) => some (mkFrame l)
      | _ => objElseBranch kvs
  | some (Json.arr xs) =>
      if xs.any (fun j => match j with | Json.str s => s == "data" | _ => false) then none
      else some (mkFrame xs)
  | some _ => none

/-- Parser interpretation 1 of the claimed order: a JSON object carrying a
`data` field that is a list. -/
def attempt1 : Json → Option Frame
  | Json.obj kvs =>
      match jsonLookup kvs "data" with
      | some (Json.arr l) => some (mkFrame l)
      | _ => none
  | _ => none

/-- Parser interpretation 2 of the claimed order: a top-level JSON
array. -/
def attempt2 : Json → Option Frame
  | Json.arr xs => some (mkFrame xs)
  | _ => none

/-- Parser interpretation 3 of the claimed order: the first object key
whose value is a non-empty list. -/
def attempt3 : Json → Option Frame
  | Json.obj kvs => objElseBranch kvs
  | _ => none

/-- First-success chaining of parse attempts. -/
def orElseO (a b : Option Frame) : Option Frame :=
  match a with
  | some x => some x
  | none => b

/-- Is the value an array all of whose elements are records (objects)? -/
def isRecordArrB : Json → Bool
  | Json.arr xs => xs.all isObjB
  | _ => false

/-! ## Payload classifier (`extract_ajax_requests`, lines 113-149) -/

/-- One observed network exchange as seen by the classifier: the
performance-log record carries only url, mime type and status (the body is
fetched later, by request id). -/
structure Exchange where
  url : String
  mimeType : String
  status : Nat

/-- The tracking/analytics denylist of `extract_ajax_requests`. -/
def trackingMarkers : List String :=
  ["facebook.com/tr", "google-analytics", "gtag",
   "doubleclick.net/ddm", "doubleclick.net/activity",
   "fls.doubleclick.net",
   "googletagmanager", "analytics.", "/pixel", "/track", "/beacon",
   "cookiebot", "hotjar", "mixpanel", "segment.io",
   "linkedin.com/px", "linkedin.com/collect",
   "t.co/i/adsct",
   "safeframe.googlesyndication",
   "recaptcha",
   "tagdeliver.com", "criteo.com/sid",
   "rudderstack.com", "clue6load.com",
   "ctnsnet.com", "rubiconproject.com",
   "smartadserver.com",
   "data:image/",
   "pubads_impl.js", "activeview", "window_focus",
   "abg_lite", "reach_worklet",
   "/dict/", "currency-file",
   "openx.net/esp"]

/-- `is_tracking`: any denylist marker occurs in the lowered URL. -/
def isTracking (url : String) : Bool :=
  trackingMarkers.any (fun p => containsStr (strLower url) p)

/-- Static-asset extensions checked by `url.endswith(ext)` (on the raw,
non-lowered URL, as in the source). -/
def staticExts : List String := [".js", ".css", ".svg", ".png", ".jpg", ".gif"]

/-- `is_static_asset`. -/
def isStaticAsset (url : String) : Bool :=
  staticExts.any (fun e => endsWithStr url e)

/-- The URL keyword list of `extract_ajax_requests` (the final entry is
the site-specific ranking-page marker). -/
def urlKeywords : List String :=
  ["/ranking", "/data", ".json", "/api/", "/ajax",
   "/university", "/datatable", "/load",
   "world-ranking"]

/-- Does the lowered URL contain one of the configured keywords? -/
def urlKeywordHit (url : String) : Bool :=
  urlKeywords.any (fun k => containsStr (strLower url) k)

/-- The filter of `extract_ajax_requests` deciding whether a response is
kept as an API candidate: `status == 200 and not is_tracking and not
is_static_asset and any(keyword in url.lower() ...)`.  The mime type is
recorded in the kept record but takes no part in the decision. -/
def isApiCandidate (e : Exchange) : Bool :=
  (e.status == 200) && !isTracking e.url && !isStaticAsset e.url && urlKeywordHit e.url

/-- An exchange as the specification describes it, including the response
body (`none` = the body does not parse as JSON). -/
structure SpecExchange where
  url : String
  mimeType : String
  status : Nat
  bodyJson : Option Json
  bodyIsJsonp : Bool

/-- The keyword set exactly as the claim spells it. -/
def specUrlKeywords : List String :=
  ["rank", "data", ".json", "/api/", "/ajax",
   "university", "datatable", "/load",
   "world-ranking"]

/-- Modelled from the spec: `ApiCandidate` classification as claimed -
status 200, mime type contains "json" or the body parses as JSON/JSONP,
the URL contains a configured keyword, and the exchange matches neither
the tracking denylist nor a static-asset extension. -/
def specApiCandidate (e : SpecExchange) : Bool :=
  (e.status == 200) &&
    (containsStr (strLower e.mimeType) "json" || e.bodyJson.isSome || e.bodyIsJsonp) &&
    !isTracking e.url && !isStaticAsset e.url &&
    specUrlKeywords.any (fun k => containsStr (strLower e.url) k)

/-! ## Content relevance scorer (`api_discovery_test.py` `_is_ranking_data`,
lines 92-107) -/

/-- The eleven domain keywords of `_is_ranking_data`. -/
def rankingKeywords : List String :=
  ["university", "college", "rank", "ranking", "score",
   "country", "teaching", "research", "citations",
   "industry income", "international outlook"]

/-- Number of ranking keywords occurring in the lowered text. -/
def rankingCount (s : String) : Nat :=
  rankingKeywords.countP (fun k => containsStr (strLower s) k)

/-- `_is_ranking_data(data)`: `False` for non-dict/list payloads, else at
least 3 keyword matches in `json.dumps(data).lower()`. -/
def is_ranking_data (j : Json) : Bool :=
  match j with
  | Json.obj _ => decide (3 ≤ rankingCount (dumps j))
  | Json.arr _ => decide (3 ≤ rankingCount (dumps j))
  | _ => false

/-! ## Ad-delivery early gate (`is_doubleclick_data`, lines 247-285) -/

/-- Tracking/pixel markers checked first by `is_doubleclick_data`. -/
def dcTrackingMarkers : List String :=
  ["/ddm", "/pixel", "/tr?", "/track", "facebook.com/tr"]

/-- Ad-delivery URL markers of `is_doubleclick_data`. -/
def dcAdMarkers : List String :=
  ["doubleclick.net/gampad", "googlesyndication.com", "googleads.com", "pagead"]

/-- The keyword list used by `is_doubleclick_data` on the body. -/
def dcKeywords : List String :=
  ["university", "ranking", "institution", "score",
   "oxford", "cambridge", "harvard", "stanford",
   "rank", "country", "citation"]

/-- Does the lowered URL match a doubleclick tracking marker? -/
def isDcTracking (url : String) : Bool :=
  dcTrackingMarkers.any (fun p => containsStr (strLower url) p)

/-- Does the lowered URL match an ad-delivery marker? -/
def isDcAd (url : String) : Bool :=
  dcAdMarkers.any (fun p => containsStr (strLower url) p)

/-- Number of doubleclick keywords occurring in the lowered body. -/
def dcKeywordCount (body : String) : Nat :=
  dcKeywords.countP (fun k => containsStr (strLower body) k)

/-- `is_doubleclick_data(url, body)`: empty bodies, tracking URLs,
non-ad-delivery URLs and bodies under 500 bytes are rejected; otherwise
the body passes if ANY keyword of `dcKeywords` occurs in it. -/
def is_doubleclick_data (url body : String) : Bool :=
  if body == "" then false
  else if isDcTracking url then false
  else if !isDcAd url then false
  else if pyLen body < 500 then false
  else dcKeywords.any (fun k => containsStr (strLower body) k)

/-- Modelled from the spec: the relevance score of a normalized table is
the ranking-keyword count over a serialized view of its content (headers
and cells, space-separated; `NaN` cells serialize as "NaN"). -/
def specFrameRelevance (f : Frame) : Nat :=
  let cellStr : Cell → String := fun c =>
    match c with
    | some j => dumps j
    | none => "NaN"
  let txt :=
    String.intercalate " "
      (f.headers ++ (f.rows.foldr (fun r acc => r.map cellStr ++ acc) []))
  rankingCount txt

/-! ## HTML table extraction (`extract_from_current_dom`, lines 452-491,
and `fallback_html_scraping`, lines 876-916) -/

/-- A parsed `<table>` as BeautifulSoup hands it to the extractors:
header-cell texts when a `<thead>` exists, and the `<td>` texts of each
`<tbody>` row. -/
structure HtmlTable where
  thead : Option (List String)
  tbody : Option (List (List String))

/-- Longest row length over string rows. -/
def foldMaxLenS (rows : List (List String)) : Nat :=
  rows.foldl (fun m r => max m r.length) 0

/-- `pd.DataFrame(rows, columns=headers if headers else None)` for a list
of string rows: with explicit columns a row longer than the header list
raises `ValueError` (caught by the extractors, yielding `None`) and
shorter rows are padded with `NaN`; with positional columns every row is
padded to the longest. -/
def mkFrameCols (rows : List (List String)) (headers : List String) : Option Frame :=
  match headers with
  | [] =>
      some { headers := [],
             rows := rows.map (fun r => padCells (r.map (fun s => some (Json.str s))) (foldMaxLenS rows)) }
  | _ :: _ =>
      if rows.any (fun r => headers.length < r.length) then none
      else
        some { headers := headers,
               rows := rows.map (fun r => padCells (r.map (fun s => some (Json.str s))) headers.length) }

/-- `extract_from_current_dom`: headers from the `<thead>` (empty when
absent), body rows kept only when they have at least one `<td>` cell
(`if cells:`), and `None` when no table or no non-empty row was found or
the DataFrame constructor raised. -/
def extract_from_current_dom (page : Option HtmlTable) : Option Frame :=
  match page with
  | none => none
  | some t =>
      let headers := t.thead.getD []
      match (t.tbody.getD []).filter (fun r => !r.isEmpty) with
      | [] => none
      | r :: rest => mkFrameCols (r :: rest) headers

/-- `fallback_html_scraping`: the same extraction logic as
`extract_from_current_dom`, duplicated in the source. -/
def fallback_html_scraping (page : Option HtmlTable) : Option Frame :=
  match page with
  | none => none
  | some t =>
      let headers := t.thead.getD []
      match (t.tbody.getD []).filter (fun r => !r.isEmpty) with
      | [] => none
      | r :: rest => mkFrameCols (r :: rest) headers

/-! ## Orchestration (`scrape_with_network_monitoring`, lines 752-873,
`scrape_year`, lines 929-970, `main`, lines 973-1053) -/

/-- Which branch of the per-request loop produced a candidate frame:
the JS-bundle path (mime contains "javascript" or url ends in .js), the
doubleclick path, or the plain `parse_datatable_json` path. -/
inductive ReqKind where
  | jsBundle
  | doubleclick
  | plainJson

/-- The observable outcome of processing one captured request: which
branch handled it and the frame its parsing produced, if any (body
missing, bodies under 100 bytes, and failed parses all yield `none`). -/
structure ReqResult where
  kind : ReqKind
  frame : Option Frame

/-- Acceptance floor applied before a parsed frame joins
`all_dataframes`: `len(df) > 50` on the JS-bundle path and `len(df) > 10`
on the doubleclick and plain JSON paths. -/
def floorFor : ReqKind → Nat
  | ReqKind.jsBundle => 50
  | ReqKind.doubleclick => 10
  | ReqKind.plainJson => 10

/-- The accumulation loop over captured requests: a frame is appended to
`all_dataframes` only when its row count exceeds the branch's floor. -/
def acceptedTables : List ReqResult → List Frame
  | [] => []
  | r :: rest =>
      match r.frame with
      | some f =>
          if floorFor r.kind < rowCount f then f :: acceptedTables rest
          else acceptedTables rest
      | none => acceptedTables rest

/-- Python `max(l, key=len)` starting from `x`: a later element replaces
the current best only when strictly longer, so the first maximal element
wins. -/
def pyMax2 (x : Frame) : List Frame → Frame
  | [] => x
  | y :: t => pyMax2 (if rowCount x < rowCount y then y else x) t

/-- `max(all_dataframes, key=len)` guarded by the emptiness check of the
source (`if all_dataframes:`). -/
def pyMaxByLen : List Frame → Option Frame
  | [] => none
  | x :: t => some (pyMax2 x t)

/-- The replacement step of the escalation branches: `if cand is not None
and len(cand) > len(best): best = cand`. -/
def bestUpdate (best : Frame) (cand : Option Frame) : Frame :=
  match cand with
  | some c => if rowCount best < rowCount c then c else best
  | none => best

/-- `YEAR_LIMITS.get(year)`: key lookup in the `YEAR_LIMITS` dictionary
(`the_scraper.py` lines 33-37, entries 2024 -> 2671, 2025 -> 2855,
2026 -> 2191). -/
def yearLimitGet (y : Nat) : Option Nat :=
  if y == 2024 then some 2671
  else if y == 2025 then some 2855
  else if y == 2026 then some 2191
  else none

/-- `YEAR_LIMITS.get(year, 1000)` as used by
`scrape_with_network_monitoring`. -/
def yearLimitD (y : Nat) : Nat := (yearLimitGet y).getD 1000

/-- The observable outcomes of the capture strategies for one year:
the per-request results of the network capture, the return values of
`inspect_page_sources` and `try_api_patterns` (each `none` when the
strategy found nothing passing its internal floors or raised), and the
return value of `fallback_html_scraping`. -/
structure ScrapeEnv where
  requests : List ReqResult
  pageDf : Option Frame
  apiDf : Option Frame
  fallbackDf : Option Frame

/-- `scrape_with_network_monitoring` (lines 752-873), returning
`(best frame if any, page-source strategy invoked, api-pattern strategy
invoked)`.  When the capture pass yields no requests at all the function
returns early (`if not ajax_requests: return None, []`, lines 766-768)
without invoking any alternative strategy.  With accumulated tables the
escalation checks are `len(best_df) < expected_rows * 0.5`, modelled
exactly as `2 * rowCount best < expected`; with requests but no
accumulated tables the page source inspection always runs, its result is
returned only when longer than 50 rows, and otherwise the api patterns
run under the same bar. -/
def scrape_with_network_monitoring (year : Nat) (env : ScrapeEnv) :
    Option Frame × Bool × Bool :=
  match env.requests with
  | [] => (none, false, false)
  | _ :: _ =>
  match pyMaxByLen (acceptedTables env.requests) with
  | some best0 =>
      if 2 * rowCount best0 < yearLimitD year then
        if 2 * rowCount (bestUpdate best0 env.pageDf) < yearLimitD year then
          (some (bestUpdate (bestUpdate best0 env.pageDf) env.apiDf), true, true)
        else (some (bestUpdate best0 env.pageDf), true, false)
      else (some best0, false, false)
  | none =>
      match env.pageDf with
      | some p =>
          if 50 < rowCount p then (some p, true, false)
          else
            match env.apiDf with
            | some a => if 50 < rowCount a then (some a, true, true) else (none, true, true)
            | none => (none, true, true)
      | none =>
          match env.apiDf with
          | some a => if 50 < rowCount a then (some a, true, true) else (none, true, true)
          | none => (none, true, true)

/-- Was the page-source inspection strategy invoked for this year? -/
def pageInvoked (year : Nat) (env : ScrapeEnv) : Bool :=
  (scrape_with_network_monitoring year env).2.1

/-- Was the known-endpoint (api-pattern) strategy invoked for this year? -/
def apiInvoked (year : Nat) (env : ScrapeEnv) : Bool :=
  (scrape_with_network_monitoring year env).2.2

/-- Best accumulated row count after the network-capture strategy
(0 when nothing was accumulated). -/
def bestAjaxCount (env : ScrapeEnv) : Nat :=
  match pyMaxByLen (acceptedTables env.requests) with
  | some f => rowCount f
  | none => 0

/-- Best accumulated row count after the page-source strategy: the
tracked best after the replacement step, or - when nothing had been
accumulated - the page result only if it passed the 50-row acceptance
bar of that path. -/
def bestAfterPageCount (env : ScrapeEnv) : Nat :=
  match pyMaxByLen (acceptedTables env.requests) with
  | some b0 => rowCount (bestUpdate b0 env.pageDf)
  | none =>
      match env.pageDf with
      | some p => if 50 < rowCount p then rowCount p else 0
      | none => 0

/-- `df.insert(0, 'Year', year)` guarded by `'Year' not in df.columns`. -/
def addYearColumn (year : Nat) (f : Frame) : Frame :=
  if f.headers.contains "Year" then f
  else { headers := "Year" :: f.headers,
         rows := f.rows.map (fun r => some (Json.num (Int.ofNat year)) :: r) }

/-- Lines 951-954 of `scrape_year`: `if df is None or len(df) < 50:
df = fallback_html_scraping(driver, verbose)` - the HTML fallback result
overwrites the cascade result (even when the cascade had data under 50
rows). -/
def fallbackOverride (env : ScrapeEnv) : Option Frame → Option Frame
  | none => env.fallbackDf
  | some f => if rowCount f < 50 then env.fallbackDf else some f

/-- Lines 956-970 of `scrape_year`: raise (`Except.error`) when the frame
is still missing or empty, then slice to `limit` (a falsy limit of `0` is
ignored, as `if limit and len(df) > limit` is) and add the Year column. -/
def finalizeYear (year : Nat) (lim : Option Nat) : Option Frame → Except Unit Frame
  | none => Except.error ()
  | some f =>
      if rowCount f = 0 then Except.error ()
      else
        Except.ok (addYearColumn year
          (match lim with
           | some n => if n ≠ 0 ∧ n < rowCount f then { f with rows := f.rows.take n } else f
           | none => f))

/-- `scrape_year` (non-interactive path): the monitoring cascade, the
HTML-fallback overwrite, and finalization. -/
def scrape_year (year : Nat) (lim : Option Nat) (env : ScrapeEnv) : Except Unit Frame :=
  finalizeYear year lim (fallbackOverride env (scrape_with_network_monitoring year env).1)

/-- Error raised by a modelled Python expression. -/
inductive PyError where
  | typeError

/-- The summary line of `main` (lines 1038-1041): `expected =
YEAR_LIMITS.get(y, "?")` followed by `"✓" if rc >= expected * 0.9 else
"⚠"`.  For a year with a known limit the float comparison agrees with
`9 * expected <= 10 * rc` on every integer `rc`; for an unknown year the
default is the string `"?"` and evaluating `"?" * 0.9` raises
`TypeError`. -/
def summaryStatus (y rc : Nat) : Except PyError String :=
  match yearLimitGet y with
  | some expected => Except.ok (if 9 * expected ≤ 10 * rc then "✓" else "⚠")
  | none => Except.error PyError.typeError

/-- One year of the batch together with the inputs of its scrape. -/
structure YearEnv where
  year : Nat
  lim : Option Nat
  env : ScrapeEnv

/-- The outcome `main` records for one year inside its `try`/`except`:
the extracted row count, or the caught per-year error. -/
def yearOutcome (e : YearEnv) : Except Unit Nat :=
  (scrape_year e.year e.lim e.env).map rowCount

/-- The `for year in args.years` loop of `main` (lines 1011-1030): each
year is attempted inside its own `try`/`except Exception`, so the loop
always advances to the next year. -/
def mainLoop : List YearEnv → List (Except Unit Nat)
  | [] => []
  | e :: rest => yearOutcome e :: mainLoop rest

/-! ## SQL export (`db_insert_generator.py`) -/

/-- The text transformations of `clean_value` (`db_insert_generator.py`
lines 14-33) before quote escaping: strip, drop one trailing percent
sign, replace `" : "` by `"/"`. -/
def cleanCore (v : String) : String :=
  let s1 := pyStrip v
  let s2 := if endsWithStr s1 "%" then dropLastChar s1 else s1
  if containsStr s2 " : " then pyReplace s2 " : " "/" else s2

/-- `clean_value` (`db_insert_generator.py` lines 14-33).  The input is
`none` for a pandas `NaN`/`None` value and `some s` for a string value:
`NULL` for missing/empty; otherwise the `cleanCore` transformations are
applied, every single quote is doubled, and the result is wrapped in
single quotes. -/
def clean_value : Option String → String
  | none => "NULL"
  | some v =>
      if v == "" then "NULL"
      else quoteStr ++ pyReplace (cleanCore v) quoteStr (quoteStr ++ quoteStr) ++ quoteStr

/-- A DataFrame row viewed by column name, as `row.get(col, '')` sees it:
`none` for a `NaN` cell; a missing column yields the default `''`. -/
def rowGet (row : List (String × Option String)) (col : String) : Option String :=
  match row.find? (fun p => p.1 == col) with
  | some p => p.2
  | none => some ""

/-- The columns read by `generate_rankings_insert`. -/
def rankingsColumns : List String :=
  ["Rank", "rank_prefix", "Name", "Overall", "Teaching",
   "Research Environment", "Research Quality", "Industry",
   "International Outlook"]

/-- The VALUES list of one Rankings INSERT: `str(year)` followed by the
cleaned column values. -/
def rankingsValues (year : Nat) (row : List (String × Option String)) : List String :=
  toString year :: rankingsColumns.map (fun c => clean_value (rowGet row c))

/-- One statement of `generate_rankings_insert` (lines 35-56). -/
def generate_rankings_insert (year : Nat) (row : List (String × Option String)) : String :=
  "INSERT INTO Rankings (year, rank, rank_prefix, name, overall, teaching, research_environment, research_quality, industry, international_outlook) VALUES ("
    ++ String.intercalate ", " (rankingsValues year row) ++ ");"

/-- Scanner deciding that every single quote in a character list belongs
to an adjacent escaped pair. -/
def quotesEscaped : List Char → Bool
  | [] => true
  | c :: t =>
      if c == quoteChar then
        match t with
        | c2 :: t2 => (c2 == quoteChar) && quotesEscaped t2
        | [] => false
      else quotesEscaped t

/-- A VALUES element is SQL-quote-safe: the literal `NULL`, a
single-quoted literal whose interior has only escaped quotes, or a bare
token with no quote at all. -/
def sqlSafeB (s : String) : Bool :=
  (s == "NULL") ||
    (match s.toList with
     | c :: rest =>
         (c == quoteChar) && !rest.isEmpty && (rest.getLast? == some quoteChar)
           && quotesEscaped rest.dropLast
     | [] => false) ||
    s.toList.all (fun c => c != quoteChar)

/-! ## Concrete inputs used in the theorems -/

/-- Scenario A payload:
`("data" maps to the two-record list with rank/name fields)`. -/
def scenarioAPayload : Json :=
  Json.obj [("data",
    Json.arr [Json.obj [("rank", Json.str "1"), ("name", Json.str "U1")],
              Json.obj [("rank", Json.str "2"), ("name", Json.str "U2")]])]

/-- The table Scenario A should parse to. -/
def scenarioAFrame : Frame :=
  { headers := ["rank", "name"],
    rows := [[some (Json.str "1"), some (Json.str "U1")],
             [some (Json.str "2"), some (Json.str "U2")]] }

/-- A 120-row single-column table with no ranking keywords. -/
def plainFrame120 : Frame :=
  { headers := ["c"], rows := List.replicate 120 [some (Json.str "aa")] }

/-- A 120-row single-column table whose first cell holds five ranking
keywords. -/
def keywordFrame120 : Frame :=
  { headers := ["c"],
    rows := [some (Json.str "university ranking score country teaching")]
      :: List.replicate 119 [some (Json.str "aa")] }

/-- Capture environment of Scenario C: the three strategies observe only
tables of 5, 8 and 4 rows, all below every acceptance floor, and the DOM
holds no table for the HTML fallback. -/
def scenarioCEnv : ScrapeEnv :=
  { requests :=
      [{ kind := ReqKind.plainJson,
         frame := some { headers := ["v"], rows := List.replicate 5 [some (Json.str "x")] } },
       { kind := ReqKind.plainJson,
         frame := some { headers := ["v"], rows := List.replicate 8 [some (Json.str "x")] } },
       { kind := ReqKind.plainJson,
         frame := some { headers := ["v"], rows := List.replicate 4 [some (Json.str "x")] } }],
    pageDf := none,
    apiDf := none,
    fallbackDf := none }

/-- A 12-row frame above the 10-row floor. -/
def frame12 : Frame :=
  { headers := ["v"], rows := List.replicate 12 [some (Json.str "x")] }

/-- Environment holding a single accepted 12-row ajax table and nothing
else. -/
def smallAjaxEnv : ScrapeEnv :=
  { requests := [{ kind := ReqKind.plainJson, frame := some frame12 }],
    pageDf := none, apiDf := none, fallbackDf := none }

/-- A non-JSON exchange whose URL carries an API keyword. -/
def htmlApiExchange : Exchange :=
  { url := "https://example.com/api/table", mimeType := "text/html", status := 200 }

/-- The same exchange with its body attached, as the spec-side classifier
sees it: the HTML body parses as neither JSON nor JSONP. -/
def htmlApiSpecExchange : SpecExchange :=
  { url := "https://example.com/api/table", mimeType := "text/html", status := 200,
    bodyJson := none, bodyIsJsonp := false }

/-- An ad-delivery URL that matches no tracking marker. -/
def dcUrl : String := "https://securepubads.g.doubleclick.net/gampad/ads"

/-- A 500-byte ad body whose only keyword hit is "oxford". -/
def dcBody : String := String.mk (List.replicate 494 (Char.ofNat 122)) ++ "oxford"

/-- Payload whose records are all empty objects: `pd.DataFrame` turns it
into a table of zero-length rows. -/
def emptyRecordsPayload : Json := Json.obj [("data", Json.arr [Json.obj [], Json.obj []])]

/-- A well-formed table for the HTML-extraction witness: the second row
is one cell short and gets padded. -/
def witnessHtmlTable : HtmlTable :=
  { thead := some ["h1", "h2"], tbody := some [["a", "b"], ["c"]] }

/-- The frame `extract_from_current_dom` produces from
`witnessHtmlTable`. -/
def witnessHtmlFrame : Frame :=
  { headers := ["h1", "h2"],
    rows := [[some (Json.str "a"), some (Json.str "b")],
             [some (Json.str "c"), none]] }

/-- Two one-row frames used to witness the tie-keeps-first property. -/
def w1Frame : Frame := { headers := [], rows := [[some (Json.str "p")]] }

/-- Second one-row frame for the same witness. -/
def w2Frame : Frame := { headers := [], rows := [[some (Json.str "q")]] }

/-- A CSV row whose Name cell carries an embedded single quote. -/
def wRow : List (String × Option String) :=
  [("Name", some ("O" ++ quoteStr ++ "Brien"))]

/-! ## Helper lemmas -/

/-- `.data` distributes over string append. -/
theorem strData_append (a b : String) : (a ++ b).data = a.data ++ b.data := by
  cases a with
  | mk la => cases b with
    | mk lb => rfl

/-- A single-quoted literal is never the bare keyword `NULL`. -/
theorem quoted_ne_NULL (s : String) : quoteStr ++ s ++ quoteStr ≠ "NULL" := by
  intro h
  have h2 := congrArg String.data h
  rw [strData_append, strData_append] at h2
  have h3 := congrArg List.head? h2
  simp [quoteStr, String.singleton] at h3
  exact absurd h3 (by decide)

/-- Every acceptance floor of the accumulation loop is at least 10. -/
theorem floorFor_ge_ten (k : ReqKind) : 10 ≤ floorFor k := by
  cases k <;> decide

/-- The default year limit is always positive. -/
theorem yearLimitD_pos (y : Nat) : 0 < yearLimitD y := by
  unfold yearLimitD yearLimitGet
  by_cases h1 : y == 2024 <;> by_cases h2 : y == 2025 <;> by_cases h3 : y == 2026 <;>
    simp [h1, h2, h3]

/-- An all-records array contains no bare string element. -/
theorem all_obj_no_str_data (xs : List Json) (h : xs.all isObjB = true) :
    (xs.any (fun j => match j with | Json.str s => s == "data" | _ => false)) = false := by
  induction xs with
  | nil => rfl
  | cons x t ih =>
      simp only [List.all_cons, Bool.and_eq_true] at h
      cases x <;> simp_all [isObjB, List.any_cons]

/-! ## Claim theorems -/

/-- C2 (counterexample): with all strategies observing only tables of 5,
8 and 4 rows against an expected row count of 1000 (Scenario C), the
query does NOT return the best 8-row table with a soft warning - every
table falls below the acceptance floors, nothing is accumulated, and when
the HTML fallback also finds nothing the year ends in a hard query-level
error. -/
theorem C2_counterexample_hard_failure :
    scenarioCEnv.requests.map (fun r => r.frame.map rowCount) = [some 5, some 8, some 4] ∧
    yearLimitD 2030 = 1000 ∧
    scrape_year 2030 none scenarioCEnv = Except.error () :=
  ⟨rfl, rfl, rfl⟩

/-- C2 (amended): every table entering the accumulation set has strictly
more than 10 rows, so sub-floor tables such as the 8-row one are never
returned from accumulation; when the cascade yields nothing the query
returns exactly what the HTML fallback finds - a hard error when the
fallback is empty, or the fallback table (as a best-effort soft result)
when it is non-empty. -/
theorem C2_floor_and_fallback :
    (∀ (rs : List ReqResult) (f : Frame), f ∈ acceptedTables rs → 10 < rowCount f) ∧
    (∀ (year : Nat) (env : ScrapeEnv),
        (scrape_with_network_monitoring year env).1 = none → env.fallbackDf = none →
          scrape_year year none env = Except.error ()) ∧
    (∀ (year : Nat) (env : ScrapeEnv) (f : Frame),
        (scrape_with_network_monitoring year env).1 = none → env.fallbackDf = some f →
          0 < rowCount f → scrape_year year none env = Except.ok (addYearColumn year f)) := by
  refine ⟨?_, ?_, ?_⟩
  · intro rs
    induction rs with
    | nil => intro f h; simp [acceptedTables] at h
    | cons r t ih =>
        obtain ⟨k, fr⟩ := r
        intro f h
        cases fr with
        | none =>
            simp only [acceptedTables] at h
            exact ih f h
        | some g =>
            simp only [acceptedTables] at h
            by_cases hg : floorFor k < rowCount g
            · rw [if_pos hg] at h
              rcases List.mem_cons.mp h with rfl | h'
              · exact lt_of_le_of_lt (floorFor_ge_ten k) hg
              · exact ih f h'
            · rw [if_neg hg] at h; exact ih f h
  · intro year env h1 h2
    unfold scrape_year
    rw [h1, show fallbackOverride env none = env.fallbackDf from rfl, h2]
    rfl
  · intro year env f h1 h2 h3
    unfold scrape_year
    rw [h1, show fallbackOverride env none = env.fallbackDf from rfl, h2]
    simp only [finalizeYear]
    rw [if_neg (by omega)]

/-- C2 (witness): the 12-row frame accepted from `smallAjaxEnv` indeed
has more than 10 rows. -/
theorem C2_witness : 10 < rowCount frame12 :=
  C2_floor_and_fallback.1 smallAjaxEnv.requests frame12
    (show frame12 ∈ acceptedTables smallAjaxEnv.requests from List.mem_singleton.mpr rfl)

/-- C4: `parse_datatable_json` tries, in order, the object-with-`data`
interpretation, the top-level-array interpretation, and the keyed
fallback, returning the first success, for every payload that is an
object or an array of records; and Scenario A's payload parses to the
2-row table with headers `rank`, `name`. -/
theorem C4_parse_attempt_order :
    (∀ j : Json, isObjB j = true ∨ isRecordArrB j = true →
        parse_datatable_json (some j)
          = orElseO (attempt1 j) (orElseO (attempt2 j) (attempt3 j))) ∧
    parse_datatable_json (some scenarioAPayload) = some scenarioAFrame ∧
    scenarioAFrame.headers = ["rank", "name"] ∧
    rowCount scenarioAFrame = 2 := by
  refine ⟨?_, rfl, rfl, rfl⟩
  intro j h
  cases j with
  | null => rcases h with h | h <;> simp [isObjB, isRecordArrB] at h
  | bool b => rcases h with h | h <;> simp [isObjB, isRecordArrB] at h
  | num n => rcases h with h | h <;> simp [isObjB, isRecordArrB] at h
  | str s => rcases h with h | h <;> simp [isObjB, isRecordArrB] at h
  | arr xs =>
      have hx : xs.all isObjB = true := by
        rcases h with h | h
        · simp [isObjB] at h
        · simpa [isRecordArrB] using h
      simp only [parse_datatable_json]
      rw [all_obj_no_str_data xs hx]
      simp [attempt1, attempt2, orElseO]
  | obj kvs =>
      simp only [parse_datatable_json, attempt1, attempt2, attempt3]
      cases hl : jsonLookup kvs "data" with
      | none => simp [hl, orElseO]
      | some v => cases v <;> simp [hl, orElseO]

/-- C4 (witness): the attempt-order equation instantiated at the
Scenario A payload. -/
theorem C4_witness :
    parse_datatable_json (some scenarioAPayload)
      = orElseO (attempt1 scenarioAPayload)
          (orElseO (attempt2 scenarioAPayload) (attempt3 scenarioAPayload)) :=
  C4_parse_attempt_order.1 scenarioAPayload (Or.inl rfl)

/-- C5 (counterexample): a status-200 exchange with mime type
`text/html`, a body that parses as neither JSON nor JSONP, and an API
keyword in its URL is kept as an API candidate by the code although the
claimed classification rejects it. -/
theorem C5_counterexample_mime_ignored :
    isApiCandidate htmlApiExchange = true ∧
    specApiCandidate htmlApiSpecExchange = false ∧
    htmlApiExchange.url = htmlApiSpecExchange.url ∧
    htmlApiExchange.mimeType = htmlApiSpecExchange.mimeType ∧
    htmlApiExchange.status = htmlApiSpecExchange.status :=
  ⟨rfl, rfl, rfl, rfl, rfl⟩

/-- C5 (amended): the classifier keeps an exchange exactly when its
status is 200, its URL matches neither the tracking denylist nor a
static-asset extension, and its lowered URL contains one of the
configured keywords; the mime type plays no role in the decision. -/
theorem C5_classifier_characterization :
    (∀ (u m m' : String) (s : Nat),
        isApiCandidate { url := u, mimeType := m, status := s }
          = isApiCandidate { url := u, mimeType := m', status := s }) ∧
    (∀ e : Exchange,
        isApiCandidate e = true ↔
          e.status = 200 ∧ isTracking e.url = false ∧ isStaticAsset e.url = false ∧
            ∃ k ∈ urlKeywords, containsStr (strLower e.url) k = true) := by
  refine ⟨fun u m m' s => rfl, fun e => ?_⟩
  unfold isApiCandidate urlKeywordHit
  simp [Bool.and_eq_true, Bool.not_eq_true', beq_iff_eq, List.any_eq_true, and_assoc]

/-- C5 (witness): the characterization instantiated at the concrete
`text/html` exchange. -/
theorem C5_witness :
    isApiCandidate htmlApiExchange = true ↔
      htmlApiExchange.status = 200 ∧ isTracking htmlApiExchange.url = false ∧
        isStaticAsset htmlApiExchange.url = false ∧
        ∃ k ∈ urlKeywords, containsStr (strLower htmlApiExchange.url) k = true :=
  C5_classifier_characterization.2 htmlApiExchange

/-- C6: for years with a known limit the summary flag is `✓` exactly when
the row count reaches 90 percent of the limit (2404 of 2671 passes, 2403
does not), but for a year without a known limit the summary computation
raises `TypeError` (from `"?" * 0.9`) instead of flagging success. -/
theorem C6_meets_expectation_flag :
    summaryStatus 2024 2404 = Except.ok "✓" ∧
    summaryStatus 2024 2403 = Except.ok "⚠" ∧
    summaryStatus 2026 1972 = Except.ok "✓" ∧
    summaryStatus 2026 1971 = Except.ok "⚠" ∧
    summaryStatus 2030 100 = Except.error PyError.typeError :=
  ⟨rfl, rfl, rfl, rfl, rfl⟩

/-- C9: the batch loop of `main` produces exactly one outcome per
requested year, and the outcome at every position depends only on that
year's own scrape (a per-year failure is caught in the per-year
`try`/`except` and cannot suppress or alter the remaining years). -/
theorem C9_batch_isolation :
    ∀ es : List YearEnv,
      (mainLoop es).length = es.length ∧
      ∀ i : Nat, (mainLoop es).get? i = (es.get? i).map yearOutcome := by
  intro es
  induction es with
  | nil => exact ⟨rfl, fun i => by cases i <;> rfl⟩
  | cons e t ih =>
      refine ⟨?_, fun i => ?_⟩
      · simpa [mainLoop] using ih.1
      · cases i with
        | zero => rfl
        | succ n => simpa [mainLoop] using ih.2 n

/-- C1 (counterexample): two accumulated 120-row tables tie on row count,
the first has relevance score 0 and the second has relevance score 6, yet
the selector returns the first (relevance-0) table - the higher relevance
score does not win the tie. -/
theorem C1_counterexample_relevance_ignored :
    rowCount plainFrame120 = 120 ∧
    rowCount keywordFrame120 = 120 ∧
    specFrameRelevance plainFrame120 = 0 ∧
    specFrameRelevance keywordFrame120 = 6 ∧
    (pyMaxByLen [plainFrame120, keywordFrame120]).map specFrameRelevance = some 0 :=
  ⟨rfl, rfl, rfl, rfl, rfl⟩

/-- C1 (amended): the selector returns a maximal-row-count table and, on
ties, keeps the earliest accumulated one (neither relevance score nor
provenance is consulted); a candidate from a later fallback strategy
replaces the current best only when strictly longer, so a tied
Script/DOM table never displaces the network-captured one. -/
theorem C1_selector_first_maximal :
    (∀ (x : Frame) (t : List Frame),
        pyMax2 x t ∈ x :: t ∧
        (∀ z ∈ x :: t, rowCount z ≤ rowCount (pyMax2 x t)) ∧
        ((∀ z ∈ t, rowCount z ≤ rowCount x) → pyMax2 x t = x)) ∧
    (∀ b c : Frame, rowCount c ≤ rowCount b → bestUpdate b (some c) = b) := by
  constructor
  · intro x t
    induction t generalizing x with
    | nil =>
        refine ⟨List.mem_singleton.mpr rfl, ?_, fun _ => rfl⟩
        intro z hz
        rcases List.mem_singleton.mp hz with rfl
        exact Nat.le_refl _
    | cons y t ih =>
        by_cases hxy : rowCount x < rowCount y
        · have hstep : pyMax2 x (y :: t) = pyMax2 y t := by
            rw [pyMax2, if_pos hxy]
          obtain ⟨hmem, hbnd, _⟩ := ih y
          refine ⟨?_, ?_, ?_⟩
          · rw [hstep]
            exact List.mem_cons_of_mem x hmem
          · intro z hz
            rw [hstep]
            rcases List.mem_cons.mp hz with rfl | hz'
            · exact le_trans (le_of_lt hxy) (hbnd y (List.mem_cons_self y t))
            · exact hbnd z hz'
          · intro hall
            exact absurd (hall y (List.mem_cons_self y t)) (Nat.not_le.mpr hxy)
        · have hstep : pyMax2 x (y :: t) = pyMax2 x t := by
            rw [pyMax2, if_neg hxy]
          obtain ⟨hmem, hbnd, hfirst⟩ := ih x
          refine ⟨?_, ?_, ?_⟩
          · rw [hstep]
            rcases List.mem_cons.mp hmem with hx | hx
            · rw [hx]; exact List.mem_cons_self x (y :: t)
            · exact List.mem_cons_of_mem x (List.mem_cons_of_mem y hx)
          · intro z hz
            rw [hstep]
            rcases List.mem_cons.mp hz with rfl | hz'
            · exact hbnd z (List.mem_cons_self z t)
            · rcases List.mem_cons.mp hz' with rfl | hz''
              · exact le_trans (Nat.not_lt.mp hxy) (hbnd x (List.mem_cons_self x t))
              · exact hbnd z (List.mem_cons_of_mem x hz'')
          · intro hall
            rw [hstep]
            exact hfirst (fun z hz => hall z (List.mem_cons_of_mem y hz))
  · intro b c h
    show (if rowCount b < rowCount c then c else b) = b
    rw [if_neg (Nat.not_lt.mpr h)]

/-- C1 (witness): on two one-row frames the tie stays with the first. -/
theorem C1_witness : pyMax2 w1Frame [w2Frame] = w1Frame :=
  (C1_selector_first_maximal.1 w1Frame [w2Frame]).2.2
    (by
      intro z hz
      rcases List.mem_singleton.mp hz with rfl
      exact Nat.le_refl _)

/-- C3: the page-source strategy is invoked only when the best row count
accumulated from the network capture is strictly below half the expected
row count, and the known-endpoint strategy is invoked only when the best
accumulated after the page-source strategy is still strictly below that
bar. -/
theorem C3_escalation_monotonic :
    ∀ (year : Nat) (env : ScrapeEnv),
      (pageInvoked year env = true → 2 * bestAjaxCount env < yearLimitD year) ∧
      (apiInvoked year env = true → 2 * bestAfterPageCount env < yearLimitD year) := by
  intro year env
  have hpos : 2 * 0 < yearLimitD year := by simpa using yearLimitD_pos year
  unfold pageInvoked apiInvoked bestAjaxCount bestAfterPageCount
    scrape_with_network_monitoring
  cases hreq : env.requests with
  | nil =>
      rw [show acceptedTables [] = [] from rfl]
      exact ⟨fun hfalse => absurd hfalse Bool.false_ne_true,
             fun hfalse => absurd hfalse Bool.false_ne_true⟩
  | cons r0 rs =>
  cases hb : pyMaxByLen (acceptedTables (r0 :: rs)) with
  | some b0 =>
      dsimp only
      by_cases h1 : 2 * rowCount b0 < yearLimitD year
      · rw [if_pos h1]
        by_cases h2 : 2 * rowCount (bestUpdate b0 env.pageDf) < yearLimitD year
        · rw [if_pos h2]
          exact ⟨fun _ => h1, fun _ => h2⟩
        · rw [if_neg h2]
          exact ⟨fun _ => h1, fun hfalse => absurd hfalse Bool.false_ne_true⟩
      · rw [if_neg h1]
        exact ⟨fun hfalse => absurd hfalse Bool.false_ne_true,
               fun hfalse => absurd hfalse Bool.false_ne_true⟩
  | none =>
      cases hp : env.pageDf with
      | some p =>
          dsimp only
          by_cases hp50 : 50 < rowCount p
          · rw [if_pos hp50]
            exact ⟨fun _ => hpos, fun hfalse => absurd hfalse Bool.false_ne_true⟩
          · rw [if_neg hp50, if_neg hp50]
            cases ha : env.apiDf with
            | some a =>
                dsimp only
                by_cases ha50 : 50 < rowCount a
                · rw [if_pos ha50]
                  exact ⟨fun _ => hpos, fun _ => hpos⟩
                · rw [if_neg ha50]
                  exact ⟨fun _ => hpos, fun _ => hpos⟩
            | none => exact ⟨fun _ => hpos, fun _ => hpos⟩
      | none =>
          cases ha : env.apiDf with
          | some a =>
              dsimp only
              by_cases ha50 : 50 < rowCount a
              · rw [if_pos ha50]
                exact ⟨fun _ => hpos, fun _ => hpos⟩
              · rw [if_neg ha50]
                exact ⟨fun _ => hpos, fun _ => hpos⟩
          | none => exact ⟨fun _ => hpos, fun _ => hpos⟩

/-- C3 (witness): with one accepted 12-row table against the default
expectation of 1000 the page strategy is invoked, and indeed
`2 * 12 < 1000`. -/
theorem C3_witness : 2 * bestAjaxCount smallAjaxEnv < yearLimitD 2030 :=
  (C3_escalation_monotonic 2030 smallAjaxEnv).1 rfl

/-- C7 (counterexample): a 500-byte ad-delivery body containing only the
keyword "oxford" passes the early ad-delivery gate although its count of
the eleven domain keywords is 0, far below the claimed threshold of 3. -/
theorem C7_counterexample_ad_gate :
    is_doubleclick_data dcUrl dcBody = true ∧
    rankingCount dcBody = 0 ∧
    pyLen dcBody = 500 :=
  ⟨rfl, rfl, rfl⟩

/-- C7 (amended): the scorer `_is_ranking_data` is relevant exactly when
at least 3 of the eleven keywords occur in the dumped payload, but the
ad-delivery early gate uses its own keyword list with threshold 1: it
passes exactly when the body is non-empty, the URL is ad-delivery and not
tracking, the body has at least 500 bytes, and at least one of ITS
keywords occurs. -/
theorem C7_relevance_gates :
    (∀ j : Json, (isObjB j || isArrB j) = true →
        (is_ranking_data j = true ↔ 3 ≤ rankingCount (dumps j))) ∧
    (∀ url body : String,
        is_doubleclick_data url body = true ↔
          (body ≠ "" ∧ isDcTracking url = false ∧ isDcAd url = true ∧
            500 ≤ pyLen body ∧ 1 ≤ dcKeywordCount body)) := by
  constructor
  · intro j h
    cases j with
    | obj kvs => simp [is_ranking_data]
    | arr xs => simp [is_ranking_data]
    | null => simp [isObjB, isArrB] at h
    | bool b => simp [isObjB, isArrB] at h
    | num n => simp [isObjB, isArrB] at h
    | str s => simp [isObjB, isArrB] at h
  · intro url body
    unfold is_doubleclick_data
    by_cases h1 : body = ""
    · subst h1
      simp
    · rw [if_neg (by simp [h1])]
      by_cases h2 : isDcTracking url = true
      · rw [if_pos h2]
        simp [h2]
      · have h2' : isDcTracking url = false := by
          simpa using h2
        rw [if_neg (by simp [h2'])]
        by_cases h3 : isDcAd url = true
        · rw [if_neg (by simp [h3])]
          by_cases h4 : pyLen body < 500
          · rw [if_pos h4]
            constructor
            · intro hff; exact absurd hff Bool.false_ne_true
            · rintro ⟨-, -, -, h5, -⟩
              exact absurd h5 (Nat.not_le.mpr h4)
          · rw [if_neg h4]
            constructor
            · intro hany
              obtain ⟨k, hk, hck⟩ := List.any_eq_true.mp hany
              have hcnt : 0 < dcKeywordCount body :=
                List.countP_pos_iff.mpr ⟨k, hk, hck⟩
              exact ⟨h1, h2', h3, Nat.not_lt.mp h4, hcnt⟩
            · rintro ⟨-, -, -, -, hcnt⟩
              obtain ⟨k, hk, hck⟩ := List.countP_pos_iff.mp hcnt
              exact List.any_eq_true.mpr ⟨k, hk, hck⟩
        · have h3' : isDcAd url = false := by
            simpa using h3
          rw [if_pos (by simp [h3'])]
          constructor
          · intro hff; exact absurd hff Bool.false_ne_true
          · rintro ⟨-, -, hdc, -, -⟩
            exact absurd hdc h3

/-- C7 (witness): the scorer characterization instantiated at the empty
JSON array. -/
theorem C7_witness :
    is_ranking_data (Json.arr []) = true ↔ 3 ≤ rankingCount (dumps (Json.arr [])) :=
  C7_relevance_gates.1 (Json.arr []) rfl

/-- Length of a padded row. -/
theorem padCells_length (r : List Cell) (n : Nat) :
    (padCells r n).length = max r.length n := by
  simp [padCells]
  omega

/-- A fold of `max` never drops below its seed. -/
theorem le_foldMax_init (rows : List (List String)) :
    ∀ a : Nat, a ≤ rows.foldl (fun m r => max m r.length) a := by
  induction rows with
  | nil => intro a; exact Nat.le_refl a
  | cons r t ih =>
      intro a
      exact le_trans (Nat.le_max_left a r.length) (ih (max a r.length))

/-- Every member's length is bounded by the `max` fold. -/
theorem mem_le_foldMax (rows : List (List String)) :
    ∀ (a : Nat) (r : List String), r ∈ rows →
      r.length ≤ rows.foldl (fun m x => max m x.length) a := by
  induction rows with
  | nil => intro a r h; cases h
  | cons x t ih =>
      intro a r h
      rcases List.mem_cons.mp h with rfl | h'
      · exact le_trans (Nat.le_max_right a r.length) (le_foldMax_init t (max a r.length))
      · exact ih (max a x.length) r h'

/-- The DataFrame constructor of the HTML paths preserves the row
invariant: with non-empty input rows, every produced row is non-empty,
and with explicit headers every produced row has exactly the header
length. -/
theorem mkFrameCols_invariant (rows : List (List String)) (headers : List String) (f : Frame)
    (hne : ∀ r ∈ rows, r ≠ []) (h : mkFrameCols rows headers = some f) :
    (∀ r ∈ f.rows, 0 < r.length) ∧
      (f.headers ≠ [] → ∀ r ∈ f.rows, r.length = f.headers.length) := by
  cases headers with
  | nil =>
      simp only [mkFrameCols] at h
      injection h with h'
      subst h'
      constructor
      · intro r hr
        obtain ⟨r0, hr0, rfl⟩ := List.mem_map.mp hr
        rw [padCells_length, List.length_map]
        have h1 : 0 < r0.length := List.length_pos.mpr (hne r0 hr0)
        omega
      · intro hh
        exact absurd rfl hh
  | cons hh ht =>
      simp only [mkFrameCols] at h
      by_cases hg : (rows.any fun r => decide ((hh :: ht).length < r.length)) = true
      · rw [if_pos hg] at h
        exact absurd h (by simp)
      · rw [if_neg hg] at h
        injection h with h'
        subst h'
        have hbound : ∀ r ∈ rows, r.length ≤ (hh :: ht).length := by
          intro r hr
          by_contra hcon
          exact hg (List.any_eq_true.mpr ⟨r, hr, by simpa using Nat.lt_of_not_le hcon⟩)
        constructor
        · intro r hr
          obtain ⟨r0, hr0, rfl⟩ := List.mem_map.mp hr
          rw [padCells_length, List.length_map]
          have hlen : 0 < (hh :: ht).length := by simp
          omega
        · intro _ r hr
          obtain ⟨r0, hr0, rfl⟩ := List.mem_map.mp hr
          rw [padCells_length, List.length_map]
          have := hbound r0 hr0
          show max r0.length (hh :: ht).length = (hh :: ht).length
          omega

/-- C8 (counterexample): the JSON parser path, fed records that are all
empty objects, produces a table whose two rows both have length 0 - a
parser-produced NormalizedTable with zero-length rows. -/
theorem C8_counterexample_zero_length_rows :
    (parse_datatable_json (some emptyRecordsPayload)).map (fun f => f.rows.map List.length)
      = some [0, 0] := rfl

/-- C8 (amended): every table produced by the HTML extraction paths
(`extract_from_current_dom` and `fallback_html_scraping`) contains no
zero-length row, and when its header sequence is non-empty every row's
length equals the header length (over-long rows make the extractor reject
the table; the record-list JSON path does not share this invariant). -/
theorem C8_html_row_invariant :
    ∀ (page : Option HtmlTable) (f : Frame),
      (extract_from_current_dom page = some f ∨ fallback_html_scraping page = some f) →
        (∀ r ∈ f.rows, 0 < r.length) ∧
          (f.headers ≠ [] → ∀ r ∈ f.rows, r.length = f.headers.length) := by
  have main : ∀ (page : Option HtmlTable) (f : Frame),
      extract_from_current_dom page = some f →
        (∀ r ∈ f.rows, 0 < r.length) ∧
          (f.headers ≠ [] → ∀ r ∈ f.rows, r.length = f.headers.length) := by
    intro page f h
    cases page with
    | none => exact absurd h (by simp [extract_from_current_dom])
    | some t =>
        simp only [extract_from_current_dom] at h
        cases hfil : (t.tbody.getD []).filter (fun r => !r.isEmpty) with
        | nil =>
            rw [hfil] at h
            exact absurd h (by simp)
        | cons r rest =>
            rw [hfil] at h
            refine mkFrameCols_invariant (r :: rest) (t.thead.getD []) f ?_ h
            intro x hx
            have hx' : x ∈ (t.tbody.getD []).filter (fun r => !r.isEmpty) := hfil ▸ hx
            have hx2 := (List.mem_filter.mp hx').2
            intro hxeq
            rw [hxeq] at hx2
            simp at hx2
  intro page f h
  rcases h with h | h
  · exact main page f h
  · exact main page f (by
      rw [show extract_from_current_dom = fallback_html_scraping from rfl]
      exact h)

/-- C8 (witness): the invariant instantiated at a concrete two-row
table whose short second row gets padded to the header length. -/
theorem C8_witness : 0 < ([some (Json.str "a"), some (Json.str "b")] : List Cell).length :=
  (C8_html_row_invariant (some witnessHtmlTable) witnessHtmlFrame (Or.inl rfl)).1
    [some (Json.str "a"), some (Json.str "b")] (List.mem_cons_self _ _)

/-- Prepending a non-quote character preserves the escapedness
invariant. -/
theorem quotesEscaped_cons_ne (c : Char) (x : List Char) (hc : ¬(c = quoteChar))
    (hx : quotesEscaped x = true) : quotesEscaped (c :: x) = true := by
  cases x with
  | nil => simp [quotesEscaped, hc]
  | cons c2 t2 =>
      simp only [quotesEscaped]
      rw [if_neg (by simp [hc])]
      exact hx

/-- Prepending an escaped quote pair preserves the escapedness
invariant. -/
theorem quotesEscaped_cons_pair (x : List Char) (hx : quotesEscaped x = true) :
    quotesEscaped (quoteChar :: quoteChar :: x) = true := by
  simp only [quotesEscaped, beq_self_eq_true, if_true, Bool.true_and]
  exact hx

/-- Replacing every single quote by two single quotes leaves only
escaped (adjacent, paired) quotes in the output. -/
theorem quotesEscaped_replaceAux :
    ∀ (fuel : Nat) (l : List Char), l.length ≤ fuel →
      quotesEscaped (replaceAux fuel l quoteChar [] [quoteChar, quoteChar]) = true := by
  intro fuel
  induction fuel with
  | zero =>
      intro l h
      have hl : l = [] := List.eq_nil_of_length_eq_zero (Nat.le_zero.mp h)
      subst hl
      rfl
  | succ n ih =>
      intro l h
      cases l with
      | nil => rfl
      | cons c t =>
          simp only [replaceAux]
          by_cases hc : c = quoteChar
          · subst hc
            rw [if_pos (by simp [List.isPrefixOf])]
            show quotesEscaped
              (quoteChar :: quoteChar :: replaceAux n (t.drop 0) quoteChar [] [quoteChar, quoteChar]) = true
            rw [List.drop_zero]
            exact quotesEscaped_cons_pair _ (ih t (by simpa using h))
          · have hpre : ((quoteChar :: ([] : List Char)).isPrefixOf (c :: t)) = false := by
              simp [List.isPrefixOf]
              exact fun h' => hc h'.symm
            rw [if_neg (by simp [hpre])]
            exact quotesEscaped_cons_ne c _ hc (ih t (by simpa using h))

/-- Quote-doubling, as `clean_value` performs it, yields a string whose
quotes are all escaped. -/
theorem quotesEscaped_pyReplace (x : String) :
    quotesEscaped (pyReplace x quoteStr (quoteStr ++ quoteStr)).toList = true := by
  show quotesEscaped (replaceAux x.toList.length x.toList quoteChar [] [quoteChar, quoteChar]) = true
  exact quotesEscaped_replaceAux x.toList.length x.toList (Nat.le_refl _)

/-- `clean_value` on a non-empty value is the quoted, quote-escaped
`cleanCore` result. -/
theorem clean_value_shape (s : String) (hs : ¬(s = "")) :
    clean_value (some s)
      = quoteStr ++ pyReplace (cleanCore s) quoteStr (quoteStr ++ quoteStr) ++ quoteStr := by
  show (if (s == "") = true then "NULL"
        else quoteStr ++ pyReplace (cleanCore s) quoteStr (quoteStr ++ quoteStr) ++ quoteStr)
      = quoteStr ++ pyReplace (cleanCore s) quoteStr (quoteStr ++ quoteStr) ++ quoteStr
  rw [if_neg (by simp [hs])]

/-- A quoted literal with escaped interior is SQL-quote-safe. -/
theorem sqlSafeB_quoted (inner : String) (h : quotesEscaped inner.toList = true) :
    sqlSafeB (quoteStr ++ inner ++ quoteStr) = true := by
  have hdata : (quoteStr ++ inner ++ quoteStr).toList
      = quoteChar :: (inner.toList ++ [quoteChar]) := by
    show ((quoteStr ++ inner) ++ quoteStr).data = quoteChar :: (inner.data ++ [quoteChar])
    rw [strData_append, strData_append]
    simp [quoteStr, String.singleton]
  unfold sqlSafeB
  rw [hdata]
  simp [List.getLast?_concat, List.dropLast_concat, h]
  exact Or.inr h

/-- C10: `clean_value` returns `NULL` exactly for `NaN` and the empty
string; every returned value is either `NULL` or a single-quoted literal
whose interior quotes are all doubled, so every data-derived VALUES
element of a generated Rankings INSERT is quote-safe; and on concrete
inputs the trimming, trailing-percent removal, separator replacement and
quote doubling behave as claimed. -/
theorem C10_clean_value :
    (∀ v : Option String, clean_value v = "NULL" ↔ (v = none ∨ v = some "")) ∧
    (∀ v : Option String, sqlSafeB (clean_value v) = true) ∧
    (∀ (year : Nat) (row : List (String × Option String)) (s : String),
        s ∈ rankingsValues year row → s = toString year ∨ sqlSafeB s = true) ∧
    clean_value (some " 33% ") = quoteStr ++ "33" ++ quoteStr ∧
    clean_value (some "17 : 1") = quoteStr ++ "17/1" ++ quoteStr ∧
    clean_value (some ("O" ++ quoteStr ++ "Brien"))
      = quoteStr ++ "O" ++ quoteStr ++ quoteStr ++ "Brien" ++ quoteStr := by
  have hsafe : ∀ v : Option String, sqlSafeB (clean_value v) = true := by
    intro v
    cases v with
    | none => rfl
    | some s =>
        by_cases hs : s = ""
        · rw [hs]; rfl
        · rw [clean_value_shape s hs]
          exact sqlSafeB_quoted _ (quotesEscaped_pyReplace _)
  have hnull : ∀ v : Option String, clean_value v = "NULL" ↔ (v = none ∨ v = some "") := by
    intro v
    constructor
    · intro h
      cases v with
      | none => exact Or.inl rfl
      | some s =>
          by_cases hs : s = ""
          · exact Or.inr (by rw [hs])
          · rw [clean_value_shape s hs] at h
            exact absurd h (quoted_ne_NULL _)
    · rintro (rfl | rfl) <;> rfl
  refine ⟨hnull, hsafe, ?_, rfl, rfl, rfl⟩
  intro year row s hmem
  unfold rankingsValues at hmem
  rcases List.mem_cons.mp hmem with rfl | hmem'
  · exact Or.inl rfl
  · obtain ⟨c, hc, rfl⟩ := List.mem_map.mp hmem'
    exact Or.inr (hsafe _)

/-- C10 (witness): the quote-safety disjunction instantiated at the
`NULL` produced for the missing Rank column of a concrete row. -/
theorem C10_witness : "NULL" = toString 2024 ∨ sqlSafeB "NULL" = true :=
  C10_clean_value.2.2.1 2024 wRow "NULL"
    (List.mem_cons_of_mem _ (List.mem_cons_self _ _))

end TheScraper
